import Mathlib

/-!
Shallow embedding of `openai.go` from badafans/gptoss2api: an OpenAI-compatible
proxy in front of the Cloudflare Workers AI responses API.  Pure Go functions
become Lean functions; the HTTP handlers are modelled up to the point where
they would hand off to the network (the JSON body parse result and the
backend's HTTP answer are explicit parameters).  Go strings are Lean strings;
Go `[]rune` conversion is `String.data`; Go `int`/`int64` are `Int`;
Go `*float64` option pointers are `Option ℚ` (only passed through, never
computed with).
-/

/-- JSON-like dynamic value, modelling Go `interface\x7b\x7d` payloads that the
proxy passes through verbatim (message `content` may be a string or any
structured value). -/
inductive JSON where
  | null : JSON
  | bool (b : Bool) : JSON
  | num (q : ℚ) : JSON
  | str (s : String) : JSON
  | arr (xs : List JSON) : JSON
  | obj (fields : List (String × JSON)) : JSON

/-- Server configuration (`Config` struct in openai.go), read once at startup. -/
structure Config where
  accountID : String
  model : String
  authToken : String
  port : String
  clientKey : String

/-- `Message` struct: role plus dynamic content. -/
structure Message where
  role : String
  content : JSON

/-- `OpenAIRequest` struct (the inbound request body). `temperature` and
`topP` are `*float64` pointers in Go, hence `Option`. -/
structure OpenAIRequest where
  model : String
  messages : List Message
  stream : Bool
  temperature : Option ℚ
  topP : Option ℚ

/-- `Usage` struct. -/
structure Usage where
  promptTokens : Int
  completionTokens : Int
  totalTokens : Int

/-- `Choice` struct. -/
structure Choice where
  index : Int
  message : Message
  finishReason : String

/-- `OpenAIResponse` struct (the unified response returned to the client). -/
structure OpenAIResponse where
  id : String
  object : String
  created : Int
  model : String
  choices : List Choice
  usage : Usage

/-- One entry of the `input` list sent to Cloudflare: the Go code builds
`map[string]interface\x7b\x7d\x7b"role": ..., "content": ...\x7d` per message. -/
structure CFInputMessage where
  role : String
  content : JSON

/-- `CloudflareRequest` struct.  `Input` is `interface\x7b\x7d` in Go but is
always the list of role/content maps built in `convertToCloudflareRequest`. -/
structure CloudflareRequest where
  model : String
  input : List CFInputMessage
  temperature : Option ℚ
  topP : Option ℚ

/-- `CloudflareContentItem` struct (`type'` models the Go field `Type`). -/
structure CloudflareContentItem where
  text : String
  type' : String

/-- `CloudflareOutputItem` struct. -/
structure CloudflareOutputItem where
  id : String
  content : List CloudflareContentItem
  role : String
  type' : String
  status : String

/-- `CloudflareUsage` struct. -/
structure CloudflareUsage where
  promptTokens : Int
  completionTokens : Int
  totalTokens : Int

/-- `CloudflareResponse` struct (the backend result). -/
structure CloudflareResponse where
  id : String
  created : Int
  model : String
  object : String
  output : List CloudflareOutputItem
  usage : CloudflareUsage

/-- An HTTP request as the two handlers observe it: method and the value of
`r.Header.Get("Authorization")` (the empty string when the header is absent,
as in Go). -/
structure HttpRequest where
  method : String
  authorization : String

/-- `authorizeClient` (openai.go lines 113-118): with no configured client key
every request passes; otherwise the Authorization header must equal
`"Bearer " ++ clientKey` exactly. -/
def authorizeClient (cfg : Config) (r : HttpRequest) : Bool :=
  if cfg.clientKey = "" then true
  else r.authorization = "Bearer " ++ cfg.clientKey

/-- `convertToCloudflareRequest` (openai.go lines 273-295): model is always
the configured one, each message becomes a role/content entry, and the two
optional floats are copied only when non-nil (mirroring the two `if` guards). -/
def convertToCloudflareRequest (cfg : Config) (openaiReq : OpenAIRequest) : CloudflareRequest :=
  let cfMessages := openaiReq.messages.map (fun m => ({ role := m.role, content := m.content } : CFInputMessage))
  let cfReq : CloudflareRequest := { model := cfg.model, input := cfMessages, temperature := none, topP := none }
  let cfReq := if openaiReq.temperature.isSome then { cfReq with temperature := openaiReq.temperature } else cfReq
  let cfReq := if openaiReq.topP.isSome then { cfReq with topP := openaiReq.topP } else cfReq
  cfReq

/-- The JSON keys present when a `CloudflareRequest` is serialized by
`encoding/json`: the struct tags are `model`, `input`, `temperature,omitempty`
and `top_p,omitempty`, and with pointer fields `omitempty` drops exactly the
nil ones. -/
def cfRequestFields (req : CloudflareRequest) : List String :=
  ["model", "input"]
    ++ (if req.temperature.isSome then ["temperature"] else [])
    ++ (if req.topP.isSome then ["top_p"] else [])

/-- Errors `callCloudflareAPI` can return (Go returns them as `error`):
a transport failure from `client.Do`, the formatted
`"API request failed: %s"` error embedding the raw body, or the
`json.Unmarshal` failure. -/
inductive CFError where
  | transport : CFError
  | apiFailed (body : String) : CFError
  | decodeFailed : CFError

/-- The triple `(*CloudflareResponse, string, error)` returned by
`callCloudflareAPI`. -/
structure CallResult where
  resp : Option CloudflareResponse
  raw : String
  err : Option CFError

/-- `callCloudflareAPI` (openai.go lines 298-324) modelled over the observable
outcome of the HTTP exchange: whether transport failed, the status code, the
response body, and the result of `json.Unmarshal` on that body (`decode`).
Non-200 status returns the raw body and the error embedding it; a 200 body
that fails to decode returns the raw body and the decode error; otherwise the
structured response plus the raw body. -/
def callCloudflareAPI (transportErr : Bool) (status : Nat) (body : String)
    (decode : String → Option CloudflareResponse) : CallResult :=
  if transportErr then { resp := none, raw := "", err := some CFError.transport }
  else if status ≠ 200 then { resp := none, raw := body, err := some (CFError.apiFailed body) }
  else match decode body with
    | none => { resp := none, raw := body, err := some CFError.decodeFailed }
    | some r => { resp := some r, raw := body, err := none }

/-- The chat-completions handler (openai.go lines 120-146) up to the backend
call: authorization is checked first, then the method, then the body parse
(`parsed` is the result of `json.Unmarshal` on the request body); a surviving
request yields the backend request that will be sent.  `Except.error` carries
the HTTP status and message of the early response. -/
def handleChatCompletionsPre (cfg : Config) (r : HttpRequest)
    (parsed : Option OpenAIRequest) : Except (Nat × String) CloudflareRequest :=
  if ¬ authorizeClient cfg r then Except.error (401, "Unauthorized")
  else if r.method ≠ "POST" then Except.error (405, "Method not allowed")
  else match parsed with
    | none => Except.error (400, "Invalid JSON")
    | some openaiReq => Except.ok (convertToCloudflareRequest cfg openaiReq)

/-- The models handler (openai.go lines 248-256) up to producing the listing:
authorization first, then the GET method check. -/
def handleModelsPre (cfg : Config) (r : HttpRequest) : Except (Nat × String) Unit :=
  if ¬ authorizeClient cfg r then Except.error (401, "Unauthorized")
  else if r.method ≠ "GET" then Except.error (405, "Method not allowed")
  else Except.ok ()

/-- The reasoning/assistant text extraction loop of `convertToOpenAIResponse`
(openai.go lines 330-345): a single pass over the output items; within a
"reasoning" item every "reasoning_text" content item overwrites the reasoning
text (last one wins), and within an assistant "message" item every
"output_text" content item overwrites the assistant text. -/
def extractTexts (output : List CloudflareOutputItem) : String × String :=
  output.foldl
    (fun acc item =>
      let r := if item.type' = "reasoning" then
          item.content.foldl (fun r c => if c.type' = "reasoning_text" then c.text else r) acc.1
        else acc.1
      let a := if item.type' = "message" ∧ item.role = "assistant" then
          item.content.foldl (fun a c => if c.type' = "output_text" then c.text else a) acc.2
        else acc.2
      (r, a))
    ("", "")

/-- The reasoning text extracted from a backend result. -/
def reasoningTextOf (resp : CloudflareResponse) : String :=
  (extractTexts resp.output).1

/-- The assistant text extracted from a backend result. -/
def assistantTextOf (resp : CloudflareResponse) : String :=
  (extractTexts resp.output).2

/-- `convertToOpenAIResponse` (openai.go lines 326-374): extract the two
texts, compose the final message (reasoning wrapped in the think delimiters
plus a newline when non-empty, then the assistant text), and build the
single-choice response. -/
def convertToOpenAIResponse (cloudflareResp : CloudflareResponse) : OpenAIResponse :=
  let reasoningText := (extractTexts cloudflareResp.output).1
  let assistantMessage := (extractTexts cloudflareResp.output).2
  let finalMessage :=
    (if reasoningText ≠ "" then "<think>" ++ reasoningText ++ "</think>" ++ "\n" else "") ++ assistantMessage
  { id := cloudflareResp.id
    object := "chat.completion"
    created := cloudflareResp.created
    model := cloudflareResp.model
    choices := [{ index := 0
                  message := { role := "assistant", content := JSON.str finalMessage }
                  finishReason := "stop" }]
    usage := { promptTokens := cloudflareResp.usage.promptTokens
               completionTokens := cloudflareResp.usage.completionTokens
               totalTokens := cloudflareResp.usage.totalTokens } }

/-- The Go type assertion `.(string)` on a message content, as used by the
streaming branch (`openaiResp.Choices[0].Message.Content.(string)`):
succeeds exactly on string values. -/
def contentAssert : JSON → Option String
  | JSON.str s => some s
  | _ => none

/-- One streamed SSE chunk event, mirroring the `map[string]interface\x7b\x7d`
literals built in the streaming branch: envelope fields, the delta (at most a
role announcement or a single-character content), index 0, an optional
finish reason and an optional usage object. -/
structure ChunkEvent where
  id : String
  object : String
  created : Int
  model : String
  deltaRole : Option String
  deltaContent : Option String
  index : Int
  finishReason : Option String
  usage : Option Usage

/-- A frame of the simulated stream: a chunk event or the literal
`[DONE]` termination sentinel. -/
inductive Frame where
  | event (e : ChunkEvent) : Frame
  | done : Frame

/-- The start event (openai.go lines 164-178): delta holds only the role
announcement, finish reason is null. -/
def startEventOf (resp : OpenAIResponse) (t : Int) : ChunkEvent :=
  { id := resp.id, object := "chat.completion.chunk", created := t, model := resp.model
    deltaRole := some "assistant", deltaContent := none, index := 0
    finishReason := none, usage := none }

/-- A content event (openai.go lines 188-202): delta holds exactly one
character of the final text, finish reason is null. -/
def contentEventOf (resp : OpenAIResponse) (t : Int) (c : Char) : ChunkEvent :=
  { id := resp.id, object := "chat.completion.chunk", created := t, model := resp.model
    deltaRole := none, deltaContent := some (String.singleton c), index := 0
    finishReason := none, usage := none }

/-- The end event (openai.go lines 212-229): empty delta, finish reason
"stop", usage copied from the response. -/
def endEventOf (resp : OpenAIResponse) (t : Int) : ChunkEvent :=
  { id := resp.id, object := "chat.completion.chunk", created := t, model := resp.model
    deltaRole := none, deltaContent := none, index := 0
    finishReason := some "stop", usage := some resp.usage }

/-- Start frame. -/
def mkStartFrame (resp : OpenAIResponse) (t : Int) : Frame :=
  Frame.event (startEventOf resp t)

/-- Content frame for one character. -/
def mkContentFrame (resp : OpenAIResponse) (t : Int) (c : Char) : Frame :=
  Frame.event (contentEventOf resp t c)

/-- End frame. -/
def mkEndFrame (resp : OpenAIResponse) (t : Int) : Frame :=
  Frame.event (endEventOf resp t)

/-- The per-character emission loop (`for _, r := range runes`), with `i`
counting the `time.Now()` calls made so far (the start event used call 0). -/
def contentLoop (resp : OpenAIResponse) (times : Nat → Int) : List Char → Nat → List Frame
  | [], _ => []
  | c :: cs, i => mkContentFrame resp (times i) c :: contentLoop resp times cs (i + 1)

/-- The full frame sequence emitted by the streaming branch
(openai.go lines 153-238) for a response whose asserted final text is
`fullContent`: start frame, one content frame per rune, end frame, then the
`[DONE]` sentinel.  `times` gives the value of the `i`-th `time.Now().Unix()`
call. -/
def emitFrames (resp : OpenAIResponse) (fullContent : String) (times : Nat → Int) : List Frame :=
  mkStartFrame resp (times 0)
    :: (contentLoop resp times fullContent.data 1
        ++ [mkEndFrame resp (times (fullContent.data.length + 1)), Frame.done])

/-- The streaming branch as the handler runs it: index `Choices[0]` and
assert the content to a string (`none` models the panic that a non-string
content or an empty choice list would cause), then emit the frames. -/
def streamFramesOf (resp : OpenAIResponse) (times : Nat → Int) : Option (List Frame) :=
  (resp.choices.head?.bind fun ch => contentAssert ch.message.content).map
    fun s => emitFrames resp s times

/-- The content deltas of a frame sequence, in order. -/
def contentDeltas (frames : List Frame) : List String :=
  frames.filterMap fun f =>
    match f with
    | Frame.event e => e.deltaContent
    | Frame.done => none

/-- Whether a frame is a content-phase frame (its delta carries content). -/
def isContentFrame : Frame → Bool
  | Frame.event e => e.deltaContent.isSome
  | Frame.done => false

/-- A lowercase hexadecimal digit, as `encoding/json` prints in escape
sequences. -/
def hexDigit (n : Nat) : Char :=
  if n < 10 then Char.ofNat (48 + n) else Char.ofNat (87 + n)

/-- Go `encoding/json` string escaping for one character with
`SetEscapeHTML(false)` (as every encoder in the streaming branch is
configured): quote and backslash are escaped, newline / carriage return /
tab get their short forms, other control characters become `\u00xx`,
U+2028 and U+2029 are escaped, and everything else — including the
angle brackets of the think delimiters — passes through unchanged. -/
def escapeChar (c : Char) : String :=
  if c = '"' then "\\\""
  else if c = '\\' then "\\\\"
  else if c = '\n' then "\\n"
  else if c = '\r' then "\\r"
  else if c = '\t' then "\\t"
  else if c.toNat < 32 then
    "\\u00" ++ String.singleton (hexDigit (c.toNat / 16)) ++ String.singleton (hexDigit (c.toNat % 16))
  else if c = '\u2028' then "\\u2028"
  else if c = '\u2029' then "\\u2029"
  else String.singleton c

/-- Go JSON string escaping of a whole string (`SetEscapeHTML(false)`). -/
def escapeString (s : String) : String :=
  String.join (s.data.map escapeChar)

/-- A JSON string literal as Go emits it. -/
def encStr (s : String) : String :=
  "\"" ++ escapeString s ++ "\""

/-- The delta object of a chunk event.  Go serializes
`map[string]interface\x7b\x7d` keys in sorted order, so `content` would come
before `role`. -/
def deltaWire (role content : Option String) : String :=
  match role, content with
  | none, none => "\x7b\x7d"
  | none, some c => "\x7b\"content\":" ++ encStr c ++ "\x7d"
  | some r, none => "\x7b\"role\":" ++ encStr r ++ "\x7d"
  | some r, some c => "\x7b\"content\":" ++ encStr c ++ ",\"role\":" ++ encStr r ++ "\x7d"

/-- The JSON text `encoding/json` produces for one chunk event (no trailing
newline).  Map keys appear in Go's sorted-key order: top level
`choices, created, id, model, object` and, when present, `usage`; inside the
single choice `delta, finish_reason, index`; inside usage
`completion_tokens, prompt_tokens, total_tokens`. -/
def encodeEvent (e : ChunkEvent) : String :=
  "\x7b\"choices\":[\x7b\"delta\":" ++ deltaWire e.deltaRole e.deltaContent
    ++ ",\"finish_reason\":" ++ (match e.finishReason with
      | none => "null"
      | some s => encStr s)
    ++ ",\"index\":" ++ toString e.index ++ "\x7d]"
    ++ ",\"created\":" ++ toString e.created
    ++ ",\"id\":" ++ encStr e.id
    ++ ",\"model\":" ++ encStr e.model
    ++ ",\"object\":" ++ encStr e.object
    ++ (match e.usage with
      | none => ""
      | some u => ",\"usage\":\x7b\"completion_tokens\":" ++ toString u.completionTokens
          ++ ",\"prompt_tokens\":" ++ toString u.promptTokens
          ++ ",\"total_tokens\":" ++ toString u.totalTokens ++ "\x7d")
    ++ "\x7d"

/-- What one `enc.Encode(event)` call writes: the JSON text followed by the
newline that `json.Encoder.Encode` always appends. -/
def encLine (e : ChunkEvent) : String :=
  encodeEvent e ++ "\n"

/-- The bytes the content loop writes: per character
`w.Write("data: ")`, `enc.Encode(event)`, `w.Write("\n")`. -/
def contentWireLoop (resp : OpenAIResponse) (times : Nat → Int) : List Char → Nat → String
  | [], _ => ""
  | c :: cs, i =>
    "data: " ++ encLine (contentEventOf resp (times i) c) ++ "\n"
      ++ contentWireLoop resp times cs (i + 1)

/-- The full byte stream the streaming branch writes (openai.go lines
179-238): start event (`data: `, Encode, `"\n"`), the content loop, the end
event (`data: `, Encode, `"\n\n"`), then the literal `data: [DONE]\n\n`. -/
def streamWire (resp : OpenAIResponse) (fullContent : String) (times : Nat → Int) : String :=
  "data: " ++ encLine (startEventOf resp (times 0)) ++ "\n"
    ++ contentWireLoop resp times fullContent.data 1
    ++ "data: " ++ encLine (endEventOf resp (times (fullContent.data.length + 1))) ++ "\n\n"
    ++ "data: [DONE]\n\n"

/-- Modelled from the spec's words, for comparison with `streamWire` (claim
C6): every emitted event framed as the bytes `data: ` followed by the
JSON-serialized event followed by a single newline, and the stream terminated
by exactly `data: [DONE]\n\n`. -/
def claimedWireC6 (resp : OpenAIResponse) (fullContent : String) (times : Nat → Int) : String :=
  "data: " ++ encodeEvent (startEventOf resp (times 0)) ++ "\n"
    ++ String.join ((List.enumFrom 1 fullContent.data).map fun p =>
        "data: " ++ encodeEvent (contentEventOf resp (times p.1) p.2) ++ "\n")
    ++ "data: " ++ encodeEvent (endEventOf resp (times (fullContent.data.length + 1))) ++ "\n"
    ++ "data: [DONE]\n\n"

/-- A configuration with a client key, as in the spec scenario
(`key = "secret"`). -/
def cfgKeyed : Config :=
  { accountID := "acct", model := "@cf/openai/gpt-oss-120b", authToken := "tok"
    port := "10000", clientKey := "secret" }

/-- A configuration with no client key configured. -/
def cfgNoKey : Config :=
  { accountID := "acct", model := "@cf/openai/gpt-oss-120b", authToken := "tok"
    port := "10000", clientKey := "" }

/-- A GET request carrying no Authorization header. -/
def reqGetNoAuth : HttpRequest := { method := "GET", authorization := "" }

/-- A POST request carrying no Authorization header. -/
def reqPostNoAuth : HttpRequest := { method := "POST", authorization := "" }

/-- A GET request authorized for `cfgKeyed`. -/
def reqGetAuthed : HttpRequest := { method := "GET", authorization := "Bearer secret" }

/-- A POST request authorized for `cfgKeyed`. -/
def reqPostAuthed : HttpRequest := { method := "POST", authorization := "Bearer secret" }

/-- A backend result containing both a reasoning item (with no reasoning
text content) and an assistant message item with text "hi". -/
def exC1 : CloudflareResponse :=
  { id := "resp1", created := 0, model := "m", object := "response"
    output := [
      { id := "o1", content := [], role := "", type' := "reasoning", status := "" },
      { id := "o2", content := [{ text := "hi", type' := "output_text" }]
        role := "assistant", type' := "message", status := "" }]
    usage := { promptTokens := 1, completionTokens := 2, totalTokens := 3 } }

/-- A backend result with non-empty reasoning text "why" and assistant
text "hi". -/
def exC1w : CloudflareResponse :=
  { id := "resp2", created := 0, model := "m", object := "response"
    output := [
      { id := "o1", content := [{ text := "why", type' := "reasoning_text" }]
        role := "", type' := "reasoning", status := "" },
      { id := "o2", content := [{ text := "hi", type' := "output_text" }]
        role := "assistant", type' := "message", status := "" }]
    usage := { promptTokens := 1, completionTokens := 2, totalTokens := 3 } }

/-- A minimal well-formed backend result, used as a decode success value. -/
def exCFResp : CloudflareResponse :=
  { id := "r", created := 0, model := "m", object := "response", output := []
    usage := { promptTokens := 0, completionTokens := 0, totalTokens := 0 } }

/-- A concrete unified response used to evaluate the wire format. -/
def exOResp : OpenAIResponse :=
  { id := "id1", object := "chat.completion", created := 0, model := "m"
    choices := [{ index := 0
                  message := { role := "assistant", content := JSON.str "ok" }
                  finishReason := "stop" }]
    usage := { promptTokens := 1, completionTokens := 2, totalTokens := 3 } }

theorem contentLoop_eq (resp : OpenAIResponse) (times : Nat → Int) :
    ∀ (cs : List Char) (i : Nat),
      contentLoop resp times cs i
        = (List.enumFrom i cs).map (fun p => mkContentFrame resp (times p.1) p.2)
  | [], _ => rfl
  | c :: cs, i => by
    simp only [contentLoop, List.enumFrom_cons, List.map_cons]
    exact congrArg _ (contentLoop_eq resp times cs (i + 1))

theorem emitFrames_eq (resp : OpenAIResponse) (s : String) (times : Nat → Int) :
    emitFrames resp s times
      = mkStartFrame resp (times 0)
        :: ((List.enumFrom 1 s.data).map (fun p => mkContentFrame resp (times p.1) p.2)
            ++ [mkEndFrame resp (times (s.data.length + 1)), Frame.done]) := by
  simp only [emitFrames, contentLoop_eq]

theorem join_cons' (a : String) (l : List String) :
    String.join (a :: l) = a ++ String.join l := by
  rw [String.join_eq, String.join_eq]
  rfl

theorem join_singleton_map (cs : List Char) :
    String.join (cs.map (fun c => String.singleton c)) = String.mk cs := by
  induction cs with
  | nil => rfl
  | cons c cs ih =>
    rw [List.map_cons, join_cons', ih]
    rfl

theorem contentDeltas_start_cons (resp : OpenAIResponse) (t : Int) (l : List Frame) :
    contentDeltas (mkStartFrame resp t :: l) = contentDeltas l := rfl

theorem contentDeltas_content_cons (resp : OpenAIResponse) (t : Int) (c : Char) (l : List Frame) :
    contentDeltas (mkContentFrame resp t c :: l) = String.singleton c :: contentDeltas l := rfl

theorem contentDeltas_append (l₁ l₂ : List Frame) :
    contentDeltas (l₁ ++ l₂) = contentDeltas l₁ ++ contentDeltas l₂ :=
  List.filterMap_append l₁ l₂ _

theorem contentDeltas_end_done (resp : OpenAIResponse) (t : Int) :
    contentDeltas [mkEndFrame resp t, Frame.done] = [] := rfl

theorem contentDeltas_loop (resp : OpenAIResponse) (times : Nat → Int) :
    ∀ (cs : List Char) (i : Nat),
      contentDeltas (contentLoop resp times cs i) = cs.map (fun c => String.singleton c)
  | [], _ => rfl
  | c :: cs, i => by
    rw [contentLoop, contentDeltas_content_cons, contentDeltas_loop resp times cs (i + 1),
      List.map_cons]

/-- Claim C2: for every final text string (Lean strings are exactly the valid
Unicode strings), the content phase of the streaming emitter produces one
delta per character — each delta is the one-character string of that code
point, so no multi-byte character is ever split across frames — and the
concatenation of the content-phase deltas in emission order is the original
string exactly. -/
theorem stream_deltas_chars (resp : OpenAIResponse) (s : String) (times : Nat → Int) :
    contentDeltas (emitFrames resp s times) = s.data.map (fun c => String.singleton c)
      ∧ String.join (contentDeltas (emitFrames resp s times)) = s := by
  have h1 : contentDeltas (emitFrames resp s times) = s.data.map (fun c => String.singleton c) := by
    rw [emitFrames, contentDeltas_start_cons, contentDeltas_append, contentDeltas_loop,
      contentDeltas_end_done, List.append_nil]
  exact ⟨h1, by rw [h1, join_singleton_map]⟩

theorem contentCount_loop (resp : OpenAIResponse) (times : Nat → Int) :
    ∀ (cs : List Char) (i : Nat),
      ((contentLoop resp times cs i).filter isContentFrame).length = cs.length
  | [], _ => rfl
  | c :: cs, i => by
    rw [contentLoop, List.filter_cons]
    simp only [isContentFrame, mkContentFrame, contentEventOf, Option.isSome_some, if_true]
    rw [List.length_cons, contentCount_loop resp times cs (i + 1)]
    rfl

/-- Claim C3: driving a unified response with final text `s` through the
streaming emitter produces exactly one start frame (delta carrying only the
role "assistant", null finish reason), then one content frame per character
of `s` in order, then exactly one end frame (empty delta, finish reason
"stop", usage from the response), then exactly one `[DONE]` sentinel — no
phase skipped or reordered — and the number of content frames is the
character count of `s`. -/
theorem stream_frame_sequence (resp : OpenAIResponse) (s : String) (times : Nat → Int) :
    emitFrames resp s times
      = mkStartFrame resp (times 0)
        :: ((List.enumFrom 1 s.data).map (fun p => mkContentFrame resp (times p.1) p.2)
            ++ [mkEndFrame resp (times (s.length + 1)), Frame.done])
      ∧ ((emitFrames resp s times).filter isContentFrame).length = s.length := by
  constructor
  · rw [emitFrames_eq]
    rfl
  · have hstart : isContentFrame (mkStartFrame resp (times 0)) = false := rfl
    have hrest : List.filter isContentFrame
        [mkEndFrame resp (times (s.data.length + 1)), Frame.done] = [] := rfl
    rw [emitFrames, List.filter_cons, hstart, if_neg Bool.false_ne_true, List.filter_append,
      hrest, List.length_append, contentCount_loop, List.length_nil]
    rfl

/-- Claim C1 (amended): for every backend result the composed final content
is the assistant text alone when the extracted reasoning text is empty
(empty string when no assistant message item exists), and otherwise the
reasoning text wrapped in the think delimiters followed by a newline and then
the assistant text; in particular, whenever the extracted reasoning text is
non-empty the composed text is exactly the delimited reasoning block, a
newline, then the assistant text, once each. -/
theorem convert_content_formula (resp : CloudflareResponse) :
    (convertToOpenAIResponse resp).choices.map (fun ch => ch.message.content)
      = [JSON.str (if reasoningTextOf resp = "" then assistantTextOf resp
          else "<think>" ++ reasoningTextOf resp ++ "</think>" ++ "\n" ++ assistantTextOf resp)]
      ∧ (reasoningTextOf resp ≠ "" →
        (convertToOpenAIResponse resp).choices.map (fun ch => ch.message.content)
          = [JSON.str ("<think>" ++ reasoningTextOf resp ++ "</think>" ++ "\n"
              ++ assistantTextOf resp)]) := by
  by_cases h : (extractTexts resp.output).1 = ""
  · constructor
    · simp [convertToOpenAIResponse, reasoningTextOf, assistantTextOf, h]
    · intro h'
      exact absurd h (by simpa [reasoningTextOf] using h')
  · constructor
    · simp [convertToOpenAIResponse, reasoningTextOf, assistantTextOf, h]
    · intro _
      simp [convertToOpenAIResponse, reasoningTextOf, assistantTextOf, h]

/-- Witness for the C1 theorem's conditional clause at a concrete input with
non-empty reasoning text. -/
theorem convert_content_formula_witness :
    (convertToOpenAIResponse exC1w).choices.map (fun ch => ch.message.content)
      = [JSON.str ("<think>" ++ reasoningTextOf exC1w ++ "</think>" ++ "\n"
          ++ assistantTextOf exC1w)] :=
  (convert_content_formula exC1w).2 (by decide)

/-- Counterexample to claim C1 as stated: `exC1` contains both a reasoning
item and an assistant message item, yet the composed text is the assistant
text "hi" alone and does not start with a delimited reasoning block, because
the reasoning item carries no reasoning text. -/
theorem convert_content_cex :
    (exC1.output.any fun i => i.type' == "reasoning") = true
      ∧ (exC1.output.any fun i => i.type' == "message" && i.role == "assistant") = true
      ∧ (convertToOpenAIResponse exC1).choices.map (fun ch => ch.message.content)
          = [JSON.str "hi"]
      ∧ ("hi" : String).startsWith "<think>" = false :=
  ⟨rfl, rfl, rfl, rfl⟩

/-- Claim C4: the backend request always carries the server-configured model
string, and the caller-supplied model value has no effect at all on the
produced backend request. -/
theorem request_model_override (cfg : Config) (req : OpenAIRequest) :
    (convertToCloudflareRequest cfg req).model = cfg.model
      ∧ ∀ m : String, convertToCloudflareRequest cfg { req with model := m }
          = convertToCloudflareRequest cfg req := by
  obtain ⟨mo, ms, st, te, tp⟩ := req
  constructor
  · cases te <;> cases tp <;> rfl
  · intro m
    rfl

/-- Claim C10: the response translator always returns exactly one choice and
its message content is a string value, so in the streaming branch the
`Choices[0]` access and the `.(string)` type assertion always succeed and the
emitter runs on that string. -/
theorem single_choice_string_content (resp : CloudflareResponse) :
    ∃ s : String,
      (convertToOpenAIResponse resp).choices.map (fun ch => ch.message.content) = [JSON.str s]
        ∧ ((convertToOpenAIResponse resp).choices.head?.bind
            fun ch => contentAssert ch.message.content) = some s
        ∧ ∀ times : Nat → Int,
          streamFramesOf (convertToOpenAIResponse resp) times
            = some (emitFrames (convertToOpenAIResponse resp) s times) := by
  refine ⟨_, rfl, rfl, fun times => rfl⟩

/-- Counterexample to claim C5 as stated: with a configured client key, a
non-POST chat-completions request that fails the authorization check is
answered 401, not 405 — the authorization check runs before the method
check, so the "regardless of the authorization check" part of the claim is
false. -/
theorem method_check_cex :
    reqGetNoAuth.method ≠ "POST"
      ∧ handleChatCompletionsPre cfgKeyed reqGetNoAuth none = Except.error (401, "Unauthorized")
      ∧ handleChatCompletionsPre cfgKeyed reqGetNoAuth none
          ≠ Except.error (405, "Method not allowed") := by
  refine ⟨by decide, rfl, ?_⟩
  intro h
  have h' : Except.error (α := CloudflareRequest) ((401 : Nat), "Unauthorized")
      = Except.error (405, "Method not allowed") := by
    exact rfl.trans h
  simp at h'

/-- Claim C5 (amended): a chat-completions request that passes the
authorization check and whose method is not POST is answered 405, and a
models request that passes the authorization check and whose method is not
GET is answered 405; when the authorization check fails the handlers answer
401 instead, whatever the method. -/
theorem method_check_after_auth (cfg : Config) (r : HttpRequest) (parsed : Option OpenAIRequest) :
    (authorizeClient cfg r = true → r.method ≠ "POST" →
        handleChatCompletionsPre cfg r parsed = Except.error (405, "Method not allowed"))
      ∧ (authorizeClient cfg r = true → r.method ≠ "GET" →
        handleModelsPre cfg r = Except.error (405, "Method not allowed"))
      ∧ (authorizeClient cfg r = false →
        handleChatCompletionsPre cfg r parsed = Except.error (401, "Unauthorized")
          ∧ handleModelsPre cfg r = Except.error (401, "Unauthorized")) := by
  refine ⟨fun ha hm => ?_, fun ha hm => ?_, fun ha => ⟨?_, ?_⟩⟩ <;>
    simp_all [handleChatCompletionsPre, handleModelsPre]

/-- Witness for the amended C5 at concrete inputs. -/
theorem method_check_after_auth_witness :
    handleChatCompletionsPre cfgKeyed reqGetAuthed none = Except.error (405, "Method not allowed")
      ∧ handleModelsPre cfgKeyed reqPostAuthed = Except.error (405, "Method not allowed") :=
  ⟨(method_check_after_auth cfgKeyed reqGetAuthed none).1 (by decide) (by decide),
    (method_check_after_auth cfgKeyed reqPostAuthed none).2.1 (by decide) (by decide)⟩

/-- Claim C7: with a configured client key, a chat-completions request whose
Authorization header does not exactly match `Bearer ` plus the key (a missing
header reads as the empty string) is answered 401 before any backend request
is built; with no configured key the authorization check always passes. -/
theorem auth_gate (cfg : Config) (r : HttpRequest) (parsed : Option OpenAIRequest) :
    (cfg.clientKey ≠ "" → r.authorization ≠ "Bearer " ++ cfg.clientKey →
        handleChatCompletionsPre cfg r parsed = Except.error (401, "Unauthorized"))
      ∧ (cfg.clientKey = "" → authorizeClient cfg r = true) := by
  constructor
  · intro hk ha
    have hfail : authorizeClient cfg r = false := by
      simp [authorizeClient, hk, ha]
    simp [handleChatCompletionsPre, hfail]
  · intro hk
    simp [authorizeClient, hk]

/-- Witness for C7: the spec scenario (key "secret", request without an
Authorization header) is answered 401, and with no key configured the check
passes. -/
theorem auth_gate_witness :
    handleChatCompletionsPre cfgKeyed reqPostNoAuth none = Except.error (401, "Unauthorized")
      ∧ authorizeClient cfgNoKey reqPostNoAuth = true :=
  ⟨(auth_gate cfgKeyed reqPostNoAuth none).1 (by decide) (by decide),
    (auth_gate cfgNoKey reqPostNoAuth none).2 rfl⟩

/-- Claim C8: on a non-success backend status the client returns no
structured result, the raw body, and the error embedding that body; on a 200
status whose body fails to decode it returns no structured result but still
the raw body along with the decode error; on a 200 status with a decodable
body it returns the structured result and the raw body with no error. -/
theorem backend_call_outcomes (status : Nat) (body : String)
    (decode : String → Option CloudflareResponse) :
    (status ≠ 200 → callCloudflareAPI false status body decode
        = { resp := none, raw := body, err := some (CFError.apiFailed body) })
      ∧ (status = 200 → decode body = none → callCloudflareAPI false status body decode
        = { resp := none, raw := body, err := some CFError.decodeFailed })
      ∧ (∀ r : CloudflareResponse, status = 200 → decode body = some r →
        callCloudflareAPI false status body decode
          = { resp := some r, raw := body, err := none }) := by
  refine ⟨fun h => ?_, fun h hd => ?_, fun r h hd => ?_⟩ <;>
    simp_all [callCloudflareAPI]

/-- Witness for C8 at concrete inputs: a 500 with body kept in the error, a
200 with an undecodable body, and a 200 with a decodable body. -/
theorem backend_call_outcomes_witness :
    callCloudflareAPI false 500 "rate limited" (fun _ => none)
        = { resp := none, raw := "rate limited", err := some (CFError.apiFailed "rate limited") }
      ∧ callCloudflareAPI false 200 "bad" (fun _ => none)
        = { resp := none, raw := "bad", err := some CFError.decodeFailed }
      ∧ callCloudflareAPI false 200 "ok" (fun _ => some exCFResp)
        = { resp := some exCFResp, raw := "ok", err := none } :=
  ⟨(backend_call_outcomes 500 "rate limited" (fun _ => none)).1 (by decide),
    (backend_call_outcomes 200 "bad" (fun _ => none)).2.1 rfl rfl,
    (backend_call_outcomes 200 "ok" (fun _ => some exCFResp)).2.2 exCFResp rfl rfl⟩

/-- Claim C9: temperature and top_p are carried into the backend request
exactly as supplied, and the corresponding JSON field appears in the
serialized backend request exactly when the caller supplied the value. -/
theorem optional_params_passthrough (cfg : Config) (req : OpenAIRequest) :
    (convertToCloudflareRequest cfg req).temperature = req.temperature
      ∧ (convertToCloudflareRequest cfg req).topP = req.topP
      ∧ ("temperature" ∈ cfRequestFields (convertToCloudflareRequest cfg req)
          ↔ req.temperature.isSome = true)
      ∧ ("top_p" ∈ cfRequestFields (convertToCloudflareRequest cfg req)
          ↔ req.topP.isSome = true) := by
  obtain ⟨mo, ms, st, te, tp⟩ := req
  cases te <;> cases tp <;>
    refine ⟨rfl, rfl, ?_, ?_⟩ <;>
    simp [convertToCloudflareRequest, cfRequestFields]

theorem contentWireLoop_eq (resp : OpenAIResponse) (times : Nat → Int) :
    ∀ (cs : List Char) (i : Nat),
      contentWireLoop resp times cs i
        = String.join ((List.enumFrom i cs).map fun p =>
            "data: " ++ encodeEvent (contentEventOf resp (times p.1) p.2) ++ "\n\n")
  | [], _ => rfl
  | c :: cs, i => by
    rw [contentWireLoop, List.enumFrom_cons, List.map_cons, join_cons',
      contentWireLoop_eq resp times cs (i + 1)]
    simp only [encLine, show ("\n\n" : String) = "\n" ++ "\n" from rfl, String.append_assoc]

/-- Claim C6 (amended): on the wire, the start frame and each content frame
are the bytes `data: ` followed by the JSON-serialized event followed by two
newlines (the serializer itself appends one newline and the emitter writes
one more), the end frame is followed by three newlines, and the stream is
terminated by exactly the bytes `data: [DONE]\n\n`; HTML-escaping is
disabled, so the `<` and `>` of the think delimiters survive untouched in the
serialized frames. -/
theorem wire_framing_formula (resp : OpenAIResponse) (s : String) (times : Nat → Int) :
    streamWire resp s times
      = "data: " ++ encodeEvent (startEventOf resp (times 0)) ++ "\n\n"
        ++ String.join ((List.enumFrom 1 s.data).map fun p =>
            "data: " ++ encodeEvent (contentEventOf resp (times p.1) p.2) ++ "\n\n")
        ++ ("data: " ++ encodeEvent (endEventOf resp (times (s.data.length + 1))) ++ "\n\n\n")
        ++ "data: [DONE]\n\n"
      ∧ escapeString "<think>" = "<think>"
      ∧ escapeString "</think>" = "</think>" := by
  refine ⟨?_, rfl, rfl⟩
  rw [streamWire, contentWireLoop_eq]
  simp only [encLine, show ("\n\n" : String) = "\n" ++ "\n" from rfl,
    show ("\n\n\n" : String) = "\n" ++ ("\n" ++ "\n") from rfl, String.append_assoc]

/-- Counterexample to claim C6 as stated: for a concrete response the bytes
actually written differ from frames of the shape `data: <event>\n` followed
by the terminator — each frame really ends in a blank line. -/
theorem wire_framing_cex :
    streamWire exOResp "" (fun _ => 0) ≠ claimedWireC6 exOResp "" (fun _ => 0) := by
  decide
